import Mathlib

/-!
Verification of the configuration-resolution engine of the Matrix Terraform
provider (`internal/provider/provider.go`).  The `Configure` method is embedded
shallowly: Terraform tri-state string values become an inductive `TfString`,
the process environment becomes a map `String → Option String`, the framework
diagnostics sink becomes a list of `Diagnostic` entries, the tflog context
becomes an explicit `LogCtx`, and the external `gomatrix.NewClient` factory is
a parameter returning `Except String Client`.
-/

/-- Terraform framework `types.String`: unknown, null, or a concrete string. -/
inductive TfString where
  | unknown : TfString
  | null : TfString
  | value : String → TfString
deriving DecidableEq, Repr

/-- `types.String.IsUnknown()`. -/
def TfString.isUnknown : TfString → Bool
  | .unknown => true
  | _ => false

/-- `types.String.IsNull()`. -/
def TfString.isNull : TfString → Bool
  | .null => true
  | _ => false

/-- `types.String.ValueString()`: the concrete string, or `""` when the value
is null or unknown. -/
def TfString.valueString : TfString → String
  | .value s => s
  | _ => ""

/-- `MatrixProviderModel` of provider.go: the three structured fields. -/
structure MatrixProviderModel where
  clientServerUrl : TfString
  defaultAccessToken : TfString
  defaultUserID : TfString
deriving DecidableEq, Repr

/-- Diagnostic severity of the framework diagnostics sink. -/
inductive Severity where
  | error : Severity
  | warning : Severity
deriving DecidableEq, Repr

/-- One diagnostics-sink entry: severity, optional attribute path (field
scoped when `some`, general when `none`), summary, detail. -/
structure Diagnostic where
  severity : Severity
  path : Option String
  summary : String
  detail : String
deriving DecidableEq, Repr

/-- `Diagnostics.HasError()`: at least one error-severity entry. -/
def hasError (ds : List Diagnostic) : Bool :=
  ds.any (fun d => d.severity = Severity.error)

/-- `AddAttributeError` entry for an unknown `client_server_url`
(provider.go lines 72-79). -/
def unknownServerUrlDiag : Diagnostic :=
  { severity := .error
    path := some "client_server_url"
    summary := "Unknown Matrix Server URL"
    detail := "The provider cannot create the Matrix API client as there is an unknown configuration value for the Matrix API host. Either target apply the source of the value first, set the value statically in the configuration, or use the MATRIX_CLIENT_SERVER_URL environment variable." }

/-- `AddAttributeError` entry for an unknown `default_access_token`
(provider.go lines 81-88). -/
def unknownAccessTokenDiag : Diagnostic :=
  { severity := .error
    path := some "default_access_token"
    summary := "Unknown Default Access Token"
    detail := "The provider cannot create the Matrix API client as there is an unknown configuration value for the default AccessToken. Either target apply the source of the value first, set the value statically in the configuration, or use the MATRIX_DEFAULT_ACCESS_TOKEN environment variable." }

/-- `AddAttributeError` entry for an unknown `default_user_id`
(provider.go lines 90-97). -/
def unknownUserIDDiag : Diagnostic :=
  { severity := .error
    path := some "default_user_id"
    summary := "Unknown Default User ID"
    detail := "The provider cannot create the Matrix API client as there is an unknown configuration value for the default UserID. Either target apply the source of the value first, set the value statically in the configuration, or use the MATRIX_DEFAULT_USERID environment variable." }

/-- `AddAttributeError` entry for an empty resolved `client_server_url`
(provider.go lines 122-130). -/
def missingServerUrlDiag : Diagnostic :=
  { severity := .error
    path := some "client_server_url"
    summary := "Missing Matrix Server URL"
    detail := "The provider cannot create the Matrix API client as there is a missing or empty value for the Matrix API host. Set the client_server_url value in the configuration or use the MATRIX_CLIENT_SERVER_URL environment variable. If either is already set, ensure the value is not empty." }

/-- `AddAttributeError` entry for an empty resolved `default_access_token`
(provider.go lines 132-140). -/
def missingAccessTokenDiag : Diagnostic :=
  { severity := .error
    path := some "default_access_token"
    summary := "Missing Default Access Token"
    detail := "The provider cannot create the Matrix API client as there is a missing or empty value for the default AccessToken. Set the default_access_token value in the configuration or use the MATRIX_DEFAULT_ACCESS_TOKEN environment variable. If either is already set, ensure the value is not empty." }

/-- `AddAttributeError` entry for an empty resolved `default_user_id`
(provider.go lines 142-150). -/
def missingUserIDDiag : Diagnostic :=
  { severity := .error
    path := some "default_user_id"
    summary := "Missing Default UserID"
    detail := "The provider cannot create the Matrix API client as there is a missing or empty value for the default UserID. Set the default_user_id value in the configuration or use the MATRIX_DEFAULT_USERID environment variable. If either is already set, ensure the value is not empty." }

/-- Head of the detail text of the construction-failure diagnostic
(provider.go lines 166-171); the underlying error message is appended
verbatim after it. -/
def clientErrorDetailHead : String :=
  "An unexpected error occurred when creating the Matrix API client. If the error is not clear, please contact the provider developers.\n\nMatrix Client Error: "

/-- `AddError` entry produced when `gomatrix.NewClient` fails
(provider.go lines 165-172); general, not field scoped. -/
def clientErrorDiag (msg : String) : Diagnostic :=
  { severity := .error
    path := none
    summary := "Unable to Create Matrix API Client"
    detail := clientErrorDetailHead ++ msg }

/-- The process environment: a variable is either set (`some`) or absent. -/
def EnvMap : Type := String → Option String

/-- `os.Getenv`: the value of the variable, or `""` when it is absent. -/
def getenv (env : EnvMap) (name : String) : String :=
  (env name).getD ""

/-- Per-field merge of provider.go lines 106-120: start from the environment
value, override with the structured value whenever the latter is not null. -/
def resolveField (v : TfString) (envVal : String) : String :=
  if !v.isNull then v.valueString else envVal

/-- The resolved `client_server_url` local of `Configure`. -/
def resolvedServerUrl (env : EnvMap) (config : MatrixProviderModel) : String :=
  resolveField config.clientServerUrl (getenv env "MATRIX_CLIENT_SERVER_URL")

/-- The resolved `default_access_token` local of `Configure`. -/
def resolvedAccessToken (env : EnvMap) (config : MatrixProviderModel) : String :=
  resolveField config.defaultAccessToken (getenv env "MATRIX_DEFAULT_ACCESS_TOKEN")

/-- The resolved `default_user_id` local of `Configure`. -/
def resolvedUserID (env : EnvMap) (config : MatrixProviderModel) : String :=
  resolveField config.defaultUserID (getenv env "MATRIX_DEFAULT_USERID")

/-- Modelled from the spec: the tflog logging context (the Credential
Redaction Context of the spec, section 4.4; the tflog library itself is an
external collaborator, not part of this repository). It carries named string
attributes and the set of attribute keys whose values must render masked. -/
structure LogCtx where
  fields : List (String × String)
  masked : List String
deriving DecidableEq, Repr

/-- The empty root logging context handed to `Configure` by the framework. -/
def LogCtx.empty : LogCtx := { fields := [], masked := [] }

/-- Modelled from the spec: `tflog.SetField` returns a derived context with
the attribute set to the given value (overwriting an attribute of the same
key). -/
def LogCtx.setField (ctx : LogCtx) (k v : String) : LogCtx :=
  { ctx with fields := ctx.fields.filter (fun p => p.1 ≠ k) ++ [(k, v)] }

/-- The placeholder the tflog renderer substitutes for a masked value. -/
def maskValue : String := "***"

/-- Modelled from the spec: `tflog.MaskFieldValuesWithFieldKeys` returns a
derived context on which the given attribute key always renders masked. -/
def LogCtx.maskFieldValuesWithFieldKeys (ctx : LogCtx) (k : String) : LogCtx :=
  { ctx with masked := ctx.masked ++ [k] }

/-- One rendered log emission: the message and the attributes as rendered,
masked attributes replaced by `maskValue`. -/
structure LogRecord where
  message : String
  fields : List (String × String)
deriving DecidableEq, Repr

/-- Modelled from the spec: emitting on a context (`tflog.Debug` /
`tflog.Info`) renders every attached attribute, substituting `maskValue` for
the ones marked masked. -/
def LogCtx.emit (ctx : LogCtx) (msg : String) : LogRecord :=
  { message := msg
    fields := ctx.fields.map
      (fun p => (p.1, if ctx.masked.contains p.1 then maskValue else p.2)) }

/-- `provider.ConfigureResponse`: the diagnostics batch and the two consumer
data slots. -/
structure ConfigureResponse (Client : Type) where
  diagnostics : List Diagnostic
  dataSourceData : Option Client
  resourceData : Option Client
deriving DecidableEq, Repr

/-- The unknown-value pass (provider.go lines 72-97): one field-scoped error
per unknown structured field, in field order, cumulatively. -/
def unknownDiags (config : MatrixProviderModel) : List Diagnostic :=
  (if config.clientServerUrl.isUnknown then [unknownServerUrlDiag] else []) ++
  (if config.defaultAccessToken.isUnknown then [unknownAccessTokenDiag] else []) ++
  (if config.defaultUserID.isUnknown then [unknownUserIDDiag] else [])

/-- The emptiness pass (provider.go lines 122-150): one field-scoped error
per empty resolved value, in field order, cumulatively. -/
def missingDiags (u t i : String) : List Diagnostic :=
  (if u = "" then [missingServerUrlDiag] else []) ++
  (if t = "" then [missingAccessTokenDiag] else []) ++
  (if i = "" then [missingUserIDDiag] else [])

/-- The logging context built by provider.go lines 156-159: the three resolved
values attached as attributes, then the access-token attribute masked. -/
def configureCtx (u t i : String) : LogCtx :=
  LogCtx.empty
    |>.setField "client_server_url" u
    |>.setField "default_access_token" t
    |>.setField "default_user_id" i
    |>.maskFieldValuesWithFieldKeys "default_access_token"

/-- `MatrixProvider.Configure` (provider.go lines 63-178), shallowly embedded.
`factory` stands for the external `gomatrix.NewClient`; it receives, in the
order of line 164, the resolved server url, user id and access token.  The
second component of the result collects the tflog emissions of the cycle. -/
def Configure {Client : Type} (factory : String → String → String → Except String Client)
    (env : EnvMap) (config : MatrixProviderModel) :
    ConfigureResponse Client × List LogRecord :=
  let ud := unknownDiags config
  if hasError ud then
    ({ diagnostics := ud, dataSourceData := none, resourceData := none }, [])
  else
    let client_server_url := resolvedServerUrl env config
    let default_access_token := resolvedAccessToken env config
    let default_user_id := resolvedUserID env config
    let ds := ud ++ missingDiags client_server_url default_access_token default_user_id
    if hasError ds then
      ({ diagnostics := ds, dataSourceData := none, resourceData := none }, [])
    else
      let ctx := configureCtx client_server_url default_access_token default_user_id
      let logs := [ctx.emit "Creating Matrix client"]
      match factory client_server_url default_user_id default_access_token with
      | .error e =>
        ({ diagnostics := ds ++ [clientErrorDiag e]
           dataSourceData := none, resourceData := none }, logs)
      | .ok client =>
        ({ diagnostics := ds
           dataSourceData := some client, resourceData := some client },
         logs ++ [ctx.emit "Configured Matrix client"])

/-! ## Helper lemmas -/

lemma hasError_append (a b : List Diagnostic) :
    hasError (a ++ b) = (hasError a || hasError b) := by
  simp [hasError, List.any_append]

lemma hasError_unknownDiags (config : MatrixProviderModel) :
    hasError (unknownDiags config) =
      (config.clientServerUrl.isUnknown || config.defaultAccessToken.isUnknown ||
        config.defaultUserID.isUnknown) := by
  cases hu : config.clientServerUrl.isUnknown <;>
    cases ht : config.defaultAccessToken.isUnknown <;>
      cases hi : config.defaultUserID.isUnknown <;>
        simp [unknownDiags, hasError, hu, ht, hi, unknownServerUrlDiag,
          unknownAccessTokenDiag, unknownUserIDDiag]

lemma hasError_missingDiags (u t i : String) :
    hasError (missingDiags u t i) =
      (decide (u = "") || decide (t = "") || decide (i = "")) := by
  by_cases hu : u = "" <;> by_cases ht : t = "" <;> by_cases hi : i = "" <;>
    simp [missingDiags, hasError, hu, ht, hi, missingServerUrlDiag,
      missingAccessTokenDiag, missingUserIDDiag]

lemma unknownDiags_nil (config : MatrixProviderModel)
    (hu : config.clientServerUrl.isUnknown = false)
    (ht : config.defaultAccessToken.isUnknown = false)
    (hi : config.defaultUserID.isUnknown = false) :
    unknownDiags config = [] := by
  simp [unknownDiags, hu, ht, hi]

lemma configure_unknown_branch {Client : Type}
    (factory : String → String → String → Except String Client)
    (env : EnvMap) (config : MatrixProviderModel)
    (h : hasError (unknownDiags config) = true) :
    Configure factory env config =
      ({ diagnostics := unknownDiags config
         dataSourceData := none, resourceData := none }, []) := by
  simp [Configure, h]

lemma configure_missing_branch {Client : Type}
    (factory : String → String → String → Except String Client)
    (env : EnvMap) (config : MatrixProviderModel)
    (h1 : hasError (unknownDiags config) = false)
    (h2 : hasError (unknownDiags config ++
      missingDiags (resolvedServerUrl env config) (resolvedAccessToken env config)
        (resolvedUserID env config)) = true) :
    Configure factory env config =
      ({ diagnostics := unknownDiags config ++
           missingDiags (resolvedServerUrl env config) (resolvedAccessToken env config)
             (resolvedUserID env config)
         dataSourceData := none, resourceData := none }, []) := by
  simp [Configure, h1, h2]

lemma configure_factory_branch {Client : Type}
    (factory : String → String → String → Except String Client)
    (env : EnvMap) (config : MatrixProviderModel)
    (h1 : hasError (unknownDiags config) = false)
    (h2 : hasError (unknownDiags config ++
      missingDiags (resolvedServerUrl env config) (resolvedAccessToken env config)
        (resolvedUserID env config)) = false) :
    Configure factory env config =
      (match factory (resolvedServerUrl env config) (resolvedUserID env config)
          (resolvedAccessToken env config) with
       | .error e =>
         ({ diagnostics := (unknownDiags config ++
              missingDiags (resolvedServerUrl env config) (resolvedAccessToken env config)
                (resolvedUserID env config)) ++ [clientErrorDiag e]
            dataSourceData := none, resourceData := none },
          [(configureCtx (resolvedServerUrl env config) (resolvedAccessToken env config)
              (resolvedUserID env config)).emit "Creating Matrix client"])
       | .ok client =>
         ({ diagnostics := unknownDiags config ++
              missingDiags (resolvedServerUrl env config) (resolvedAccessToken env config)
                (resolvedUserID env config)
            dataSourceData := some client, resourceData := some client },
          [(configureCtx (resolvedServerUrl env config) (resolvedAccessToken env config)
              (resolvedUserID env config)).emit "Creating Matrix client",
           (configureCtx (resolvedServerUrl env config) (resolvedAccessToken env config)
              (resolvedUserID env config)).emit "Configured Matrix client"])) := by
  simp [Configure, h1, h2]

lemma configureCtx_emit (u t i msg : String) :
    (configureCtx u t i).emit msg =
      { message := msg
        fields := [("client_server_url", u), ("default_access_token", maskValue),
          ("default_user_id", i)] } := rfl

lemma configure_resolved_congr {Client : Type}
    (factory : String → String → String → Except String Client)
    (config : MatrixProviderModel) (e₁ e₂ : EnvMap)
    (hu : resolvedServerUrl e₁ config = resolvedServerUrl e₂ config)
    (ht : resolvedAccessToken e₁ config = resolvedAccessToken e₂ config)
    (hi : resolvedUserID e₁ config = resolvedUserID e₂ config) :
    Configure factory e₁ config = Configure factory e₂ config := by
  simp only [Configure, hu, ht, hi]

/-! ## Claim theorems -/

/-- C1: for each of the three fields, when the structured value is not unknown
(i.e. concrete or null), the resolved value equals the structured value in the
concrete case and otherwise the environment value, with an absent variable
read as the empty string; structured configuration wins over environment. -/
theorem value_resolver_precedence (env : EnvMap) (config : MatrixProviderModel) :
    ((∀ s, config.clientServerUrl = .value s → resolvedServerUrl env config = s) ∧
     (config.clientServerUrl = .null →
        resolvedServerUrl env config = (env "MATRIX_CLIENT_SERVER_URL").getD "")) ∧
    ((∀ s, config.defaultAccessToken = .value s → resolvedAccessToken env config = s) ∧
     (config.defaultAccessToken = .null →
        resolvedAccessToken env config = (env "MATRIX_DEFAULT_ACCESS_TOKEN").getD "")) ∧
    ((∀ s, config.defaultUserID = .value s → resolvedUserID env config = s) ∧
     (config.defaultUserID = .null →
        resolvedUserID env config = (env "MATRIX_DEFAULT_USERID").getD "")) := by
  refine ⟨⟨fun s h => ?_, fun h => ?_⟩, ⟨fun s h => ?_, fun h => ?_⟩,
    ⟨fun s h => ?_, fun h => ?_⟩⟩ <;>
    simp [resolvedServerUrl, resolvedAccessToken, resolvedUserID, resolveField,
      getenv, h, TfString.isNull, TfString.valueString]

/-- Witness for C1: a configuration with a concrete endpoint (environment set
to a conflicting value), a null credential (resolved from environment) and a
concrete identity. -/
theorem value_resolver_precedence_witness :
    resolvedServerUrl
        (fun n => if n = "MATRIX_DEFAULT_ACCESS_TOKEN" then some "tokenv" else some "zzz")
        ⟨.value "https://a", .null, .value "@u:x"⟩ = "https://a" ∧
    resolvedAccessToken
        (fun n => if n = "MATRIX_DEFAULT_ACCESS_TOKEN" then some "tokenv" else some "zzz")
        ⟨.value "https://a", .null, .value "@u:x"⟩ = "tokenv" ∧
    resolvedUserID
        (fun n => if n = "MATRIX_DEFAULT_ACCESS_TOKEN" then some "tokenv" else some "zzz")
        ⟨.value "https://a", .null, .value "@u:x"⟩ = "@u:x" := by
  refine ⟨(value_resolver_precedence _ _).1.1 "https://a" rfl, ?_,
    (value_resolver_precedence _ _).2.2.1 "@u:x" rfl⟩
  exact (value_resolver_precedence _ _).2.1.2 rfl

/-- C7: for each environment variable, running the cycle with the variable
unset is observably equivalent to running it with the variable set to the
empty string — same resolved values, same response, same log emissions. -/
theorem configure_env_absent_eq_empty {Client : Type}
    (factory : String → String → String → Except String Client)
    (config : MatrixProviderModel) (env : EnvMap) (name : String) :
    resolvedServerUrl (fun n => if n = name then none else env n) config =
      resolvedServerUrl (fun n => if n = name then some "" else env n) config ∧
    resolvedAccessToken (fun n => if n = name then none else env n) config =
      resolvedAccessToken (fun n => if n = name then some "" else env n) config ∧
    resolvedUserID (fun n => if n = name then none else env n) config =
      resolvedUserID (fun n => if n = name then some "" else env n) config ∧
    Configure factory (fun n => if n = name then none else env n) config =
      Configure factory (fun n => if n = name then some "" else env n) config := by
  have hg : ∀ n, getenv (fun n => if n = name then none else env n) n =
      getenv (fun n => if n = name then some "" else env n) n := by
    intro n
    by_cases h : n = name <;> simp [getenv, h]
  have hu : resolvedServerUrl (fun n => if n = name then none else env n) config =
      resolvedServerUrl (fun n => if n = name then some "" else env n) config := by
    unfold resolvedServerUrl
    rw [hg]
  have ht : resolvedAccessToken (fun n => if n = name then none else env n) config =
      resolvedAccessToken (fun n => if n = name then some "" else env n) config := by
    unfold resolvedAccessToken
    rw [hg]
  have hi : resolvedUserID (fun n => if n = name then none else env n) config =
      resolvedUserID (fun n => if n = name then some "" else env n) config := by
    unfold resolvedUserID
    rw [hg]
  exact ⟨hu, ht, hi, configure_resolved_congr factory config _ _ hu ht hi⟩

/-- C8: all-null structured configuration with only the endpoint environment
variable set fails with exactly two diagnostics, for the access token and the
user id, none for the endpoint, which resolves silently from the environment. -/
theorem configure_scenario_c {Client : Type}
    (factory : String → String → String → Except String Client) :
    Configure factory
        (fun n => if n = "MATRIX_CLIENT_SERVER_URL" then some "https://x" else none)
        { clientServerUrl := .null, defaultAccessToken := .null, defaultUserID := .null } =
      ({ diagnostics := [missingAccessTokenDiag, missingUserIDDiag]
         dataSourceData := none, resourceData := none }, []) ∧
    resolvedServerUrl
        (fun n => if n = "MATRIX_CLIENT_SERVER_URL" then some "https://x" else none)
        { clientServerUrl := .null, defaultAccessToken := .null, defaultUserID := .null } =
      "https://x" :=
  ⟨rfl, rfl⟩

/-- C2: whenever at least one structured field is unknown, the cycle ends with
exactly one field-scoped error diagnostic per unknown field (all three fields
checked cumulatively), both data slots empty, and no log emission; the result
does not depend on the factory at all (quantified over every `Client` type and
every factory), so client construction never happens. -/
theorem configure_unknown_pass {Client : Type}
    (factory : String → String → String → Except String Client)
    (env : EnvMap) (config : MatrixProviderModel)
    (h : config.clientServerUrl.isUnknown = true ∨
      config.defaultAccessToken.isUnknown = true ∨
      config.defaultUserID.isUnknown = true) :
    Configure factory env config =
      ({ diagnostics :=
           (if config.clientServerUrl.isUnknown then [unknownServerUrlDiag] else []) ++
           (if config.defaultAccessToken.isUnknown then [unknownAccessTokenDiag] else []) ++
           (if config.defaultUserID.isUnknown then [unknownUserIDDiag] else [])
         dataSourceData := none, resourceData := none }, []) := by
  have hh : hasError (unknownDiags config) = true := by
    rw [hasError_unknownDiags]
    rcases h with h | h | h <;> simp [h]
  exact configure_unknown_branch factory env config hh

/-- Witness for C2: a configuration whose access token is unknown. -/
theorem configure_unknown_pass_witness :
    Configure (fun _ _ _ => Except.ok ()) (fun _ => none)
        ⟨.value "https://a", .unknown, .null⟩ =
      ({ diagnostics := [unknownAccessTokenDiag]
         dataSourceData := none, resourceData := none }, []) := by
  exact configure_unknown_pass (fun _ _ _ => Except.ok ()) (fun _ => none)
    ⟨.value "https://a", .unknown, .null⟩ (Or.inr (Or.inl rfl))

/-- C3: when no structured field is unknown and at least one resolved value is
empty, the cycle ends with exactly one field-scoped error diagnostic per empty
resolved field (all three fields checked cumulatively), both data slots empty
and no log emission; the result does not depend on the factory, so client
construction never happens. -/
theorem configure_emptiness_pass {Client : Type}
    (factory : String → String → String → Except String Client)
    (env : EnvMap) (config : MatrixProviderModel)
    (hu : config.clientServerUrl.isUnknown = false)
    (ht : config.defaultAccessToken.isUnknown = false)
    (hi : config.defaultUserID.isUnknown = false)
    (he : resolvedServerUrl env config = "" ∨ resolvedAccessToken env config = "" ∨
      resolvedUserID env config = "") :
    Configure factory env config =
      ({ diagnostics :=
           (if resolvedServerUrl env config = "" then [missingServerUrlDiag] else []) ++
           (if resolvedAccessToken env config = "" then [missingAccessTokenDiag] else []) ++
           (if resolvedUserID env config = "" then [missingUserIDDiag] else [])
         dataSourceData := none, resourceData := none }, []) := by
  have h1 : hasError (unknownDiags config) = false := by
    rw [hasError_unknownDiags]
    simp [hu, ht, hi]
  have h2 : hasError (unknownDiags config ++
      missingDiags (resolvedServerUrl env config) (resolvedAccessToken env config)
        (resolvedUserID env config)) = true := by
    rw [hasError_append, hasError_missingDiags]
    rcases he with h | h | h <;> simp [h]
  rw [configure_missing_branch factory env config h1 h2,
    unknownDiags_nil config hu ht hi]
  rfl

/-- Witness for C3: all-null configuration with an empty environment; all
three missing-value diagnostics accumulate. -/
theorem configure_emptiness_pass_witness :
    Configure (fun _ _ _ => Except.ok ()) (fun _ => none) ⟨.null, .null, .null⟩ =
      ({ diagnostics := [missingServerUrlDiag, missingAccessTokenDiag, missingUserIDDiag]
         dataSourceData := none, resourceData := none }, []) := by
  exact configure_emptiness_pass (fun _ _ _ => Except.ok ()) (fun _ => none)
    ⟨.null, .null, .null⟩ rfl rfl rfl (Or.inl rfl)

lemma missingDiags_nil (u t i : String) (hcu : u ≠ "") (hct : t ≠ "") (hci : i ≠ "") :
    missingDiags u t i = [] := by
  simp [missingDiags, hcu, hct, hci]

/-- C4: for every factory, environment and structured configuration, exactly
one of two outcomes holds at the end of the cycle: the diagnostics batch has
an error and both data slots are unpopulated, or the batch has no error and
both slots hold the constructed client. -/
theorem configure_outcome_dichotomy {Client : Type}
    (factory : String → String → String → Except String Client)
    (env : EnvMap) (config : MatrixProviderModel) :
    (hasError (Configure factory env config).1.diagnostics = true ∧
      (Configure factory env config).1.dataSourceData = none ∧
      (Configure factory env config).1.resourceData = none) ∨
    (hasError (Configure factory env config).1.diagnostics = false ∧
      ∃ c, (Configure factory env config).1.dataSourceData = some c ∧
        (Configure factory env config).1.resourceData = some c) := by
  cases h1 : hasError (unknownDiags config) with
  | true =>
    rw [configure_unknown_branch factory env config h1]
    exact Or.inl ⟨h1, rfl, rfl⟩
  | false =>
    cases h2 : hasError (unknownDiags config ++
        missingDiags (resolvedServerUrl env config) (resolvedAccessToken env config)
          (resolvedUserID env config)) with
    | true =>
      rw [configure_missing_branch factory env config h1 h2]
      exact Or.inl ⟨h2, rfl, rfl⟩
    | false =>
      rw [configure_factory_branch factory env config h1 h2]
      cases hf : factory (resolvedServerUrl env config) (resolvedUserID env config)
          (resolvedAccessToken env config) with
      | error e =>
        refine Or.inl ⟨?_, rfl, rfl⟩
        rw [hasError_append, h2]
        simp [hasError, clientErrorDiag]
      | ok c =>
        exact Or.inr ⟨h2, c, rfl, rfl⟩

/-- C5: when the single construction attempt fails, the cycle ends with
exactly one general (non-field-scoped) error diagnostic whose detail embeds
the construction error message verbatim after the fixed detail head, and
neither handle slot is populated. -/
theorem configure_factory_error {Client : Type}
    (factory : String → String → String → Except String Client)
    (env : EnvMap) (config : MatrixProviderModel) (msg : String)
    (hu : config.clientServerUrl.isUnknown = false)
    (ht : config.defaultAccessToken.isUnknown = false)
    (hi : config.defaultUserID.isUnknown = false)
    (hcu : resolvedServerUrl env config ≠ "")
    (hct : resolvedAccessToken env config ≠ "")
    (hci : resolvedUserID env config ≠ "")
    (hf : factory (resolvedServerUrl env config) (resolvedUserID env config)
        (resolvedAccessToken env config) = .error msg) :
    Configure factory env config =
      ({ diagnostics := [{ severity := .error, path := none, summary := "Unable to Create Matrix API Client", detail := clientErrorDetailHead ++ msg }]
         dataSourceData := none, resourceData := none },
       [{ message := "Creating Matrix client", fields := [("client_server_url", resolvedServerUrl env config), ("default_access_token", maskValue), ("default_user_id", resolvedUserID env config)] }]) := by
  have h1 : hasError (unknownDiags config) = false := by
    rw [hasError_unknownDiags]
    simp [hu, ht, hi]
  have h2 : hasError (unknownDiags config ++
      missingDiags (resolvedServerUrl env config) (resolvedAccessToken env config)
        (resolvedUserID env config)) = false := by
    rw [hasError_append, hasError_unknownDiags, hasError_missingDiags]
    simp [hu, ht, hi, hcu, hct, hci]
  rw [configure_factory_branch factory env config h1 h2, hf,
    unknownDiags_nil config hu ht hi,
    missingDiags_nil _ _ _ hcu hct hci]
  rfl

/-- Witness for C5: a factory that always fails with message "boom". -/
theorem configure_factory_error_witness :
    Configure (fun _ _ _ => (Except.error "boom" : Except String Unit)) (fun _ => none)
        ⟨.value "https://a", .value "tok", .value "@u:x"⟩ =
      ({ diagnostics := [{ severity := .error, path := none, summary := "Unable to Create Matrix API Client", detail := clientErrorDetailHead ++ "boom" }]
         dataSourceData := none, resourceData := none },
       [{ message := "Creating Matrix client", fields := [("client_server_url", "https://a"), ("default_access_token", maskValue), ("default_user_id", "@u:x")] }]) := by
  exact configure_factory_error (fun _ _ _ => (Except.error "boom" : Except String Unit))
    (fun _ => none) ⟨.value "https://a", .value "tok", .value "@u:x"⟩ "boom"
    rfl rfl rfl (by decide) (by decide) (by decide) rfl

/-- C6: on a successful cycle both consumer data slots hold the same single
client instance returned by the one factory call, and the diagnostics batch is
empty. -/
theorem configure_success_shared_handle {Client : Type}
    (factory : String → String → String → Except String Client)
    (env : EnvMap) (config : MatrixProviderModel) (c : Client)
    (hu : config.clientServerUrl.isUnknown = false)
    (ht : config.defaultAccessToken.isUnknown = false)
    (hi : config.defaultUserID.isUnknown = false)
    (hcu : resolvedServerUrl env config ≠ "")
    (hct : resolvedAccessToken env config ≠ "")
    (hci : resolvedUserID env config ≠ "")
    (hf : factory (resolvedServerUrl env config) (resolvedUserID env config)
        (resolvedAccessToken env config) = .ok c) :
    (Configure factory env config).1.dataSourceData = some c ∧
    (Configure factory env config).1.resourceData = some c ∧
    (Configure factory env config).1.diagnostics = [] := by
  have h1 : hasError (unknownDiags config) = false := by
    rw [hasError_unknownDiags]
    simp [hu, ht, hi]
  have h2 : hasError (unknownDiags config ++
      missingDiags (resolvedServerUrl env config) (resolvedAccessToken env config)
        (resolvedUserID env config)) = false := by
    rw [hasError_append, hasError_unknownDiags, hasError_missingDiags]
    simp [hu, ht, hi, hcu, hct, hci]
  rw [configure_factory_branch factory env config h1 h2, hf,
    unknownDiags_nil config hu ht hi,
    missingDiags_nil _ _ _ hcu hct hci]
  exact ⟨rfl, rfl, rfl⟩

/-- Witness for C6: a factory that packages its three arguments; both slots
hold that same tuple. -/
theorem configure_success_shared_handle_witness :
    (Configure (fun u i t => (Except.ok (u, i, t) : Except String (String × String × String)))
        (fun _ => none) ⟨.value "https://a", .value "tok", .value "@u:x"⟩).1.dataSourceData =
      some ("https://a", "@u:x", "tok") ∧
    (Configure (fun u i t => (Except.ok (u, i, t) : Except String (String × String × String)))
        (fun _ => none) ⟨.value "https://a", .value "tok", .value "@u:x"⟩).1.resourceData =
      some ("https://a", "@u:x", "tok") := by
  have h := configure_success_shared_handle
    (fun u i t => (Except.ok (u, i, t) : Except String (String × String × String)))
    (fun _ => none) ⟨.value "https://a", .value "tok", .value "@u:x"⟩
    ("https://a", "@u:x", "tok") rfl rfl rfl (by decide) (by decide) (by decide) rfl
  exact ⟨h.1, h.2.1⟩

/-- C9: in every successful cycle the access-token logging attribute is
masked before either log emission, so both emitted records (the one before
construction and the one after) render the credential as `maskValue` while
the endpoint and identity attributes render their literal resolved values;
no later emission of the cycle ever renders the credential unmasked. -/
theorem configure_success_redaction {Client : Type}
    (factory : String → String → String → Except String Client)
    (env : EnvMap) (config : MatrixProviderModel) (c : Client)
    (hu : config.clientServerUrl.isUnknown = false)
    (ht : config.defaultAccessToken.isUnknown = false)
    (hi : config.defaultUserID.isUnknown = false)
    (hcu : resolvedServerUrl env config ≠ "")
    (hct : resolvedAccessToken env config ≠ "")
    (hci : resolvedUserID env config ≠ "")
    (hf : factory (resolvedServerUrl env config) (resolvedUserID env config)
        (resolvedAccessToken env config) = .ok c) :
    (Configure factory env config).2 =
      [{ message := "Creating Matrix client", fields := [("client_server_url", resolvedServerUrl env config), ("default_access_token", maskValue), ("default_user_id", resolvedUserID env config)] },
       { message := "Configured Matrix client", fields := [("client_server_url", resolvedServerUrl env config), ("default_access_token", maskValue), ("default_user_id", resolvedUserID env config)] }] := by
  have h1 : hasError (unknownDiags config) = false := by
    rw [hasError_unknownDiags]
    simp [hu, ht, hi]
  have h2 : hasError (unknownDiags config ++
      missingDiags (resolvedServerUrl env config) (resolvedAccessToken env config)
        (resolvedUserID env config)) = false := by
    rw [hasError_append, hasError_unknownDiags, hasError_missingDiags]
    simp [hu, ht, hi, hcu, hct, hci]
  rw [configure_factory_branch factory env config h1 h2, hf]
  rfl

/-- Witness for C9: a successful run whose two log records mask the token and
keep endpoint and identity literal. -/
theorem configure_success_redaction_witness :
    (Configure (fun _ _ _ => (Except.ok () : Except String Unit)) (fun _ => none)
        ⟨.value "https://b", .value "secret", .value "@v:y"⟩).2 =
      [{ message := "Creating Matrix client", fields := [("client_server_url", "https://b"), ("default_access_token", maskValue), ("default_user_id", "@v:y")] },
       { message := "Configured Matrix client", fields := [("client_server_url", "https://b"), ("default_access_token", maskValue), ("default_user_id", "@v:y")] }] := by
  exact configure_success_redaction (fun _ _ _ => (Except.ok () : Except String Unit))
    (fun _ => none) ⟨.value "https://b", .value "secret", .value "@v:y"⟩ ()
    rfl rfl rfl (by decide) (by decide) (by decide) rfl

/-- C10: when a structured field is concrete but equal to the empty string
(and no field is unknown), the environment fallback is not consulted for that
field: it resolves to the empty string for every environment, the cycle fails
with the missing-value diagnostic naming that field, and neither data slot is
populated. -/
theorem configure_concrete_empty_no_fallback {Client : Type}
    (factory : String → String → String → Except String Client)
    (env : EnvMap) (config : MatrixProviderModel)
    (hu : config.clientServerUrl.isUnknown = false)
    (ht : config.defaultAccessToken.isUnknown = false)
    (hi : config.defaultUserID.isUnknown = false) :
    (config.clientServerUrl = .value "" →
       resolvedServerUrl env config = "" ∧
       missingServerUrlDiag ∈ (Configure factory env config).1.diagnostics ∧
       (Configure factory env config).1.dataSourceData = none ∧
       (Configure factory env config).1.resourceData = none) ∧
    (config.defaultAccessToken = .value "" →
       resolvedAccessToken env config = "" ∧
       missingAccessTokenDiag ∈ (Configure factory env config).1.diagnostics ∧
       (Configure factory env config).1.dataSourceData = none ∧
       (Configure factory env config).1.resourceData = none) ∧
    (config.defaultUserID = .value "" →
       resolvedUserID env config = "" ∧
       missingUserIDDiag ∈ (Configure factory env config).1.diagnostics ∧
       (Configure factory env config).1.dataSourceData = none ∧
       (Configure factory env config).1.resourceData = none) := by
  have h1 : hasError (unknownDiags config) = false := by
    rw [hasError_unknownDiags]
    simp [hu, ht, hi]
  refine ⟨fun h => ?_, fun h => ?_, fun h => ?_⟩
  · have hre : resolvedServerUrl env config = "" := by
      simp [resolvedServerUrl, resolveField, h, TfString.isNull, TfString.valueString]
    have h2 : hasError (unknownDiags config ++
        missingDiags (resolvedServerUrl env config) (resolvedAccessToken env config)
          (resolvedUserID env config)) = true := by
      rw [hasError_append, hasError_missingDiags]
      simp [hre]
    rw [configure_missing_branch factory env config h1 h2]
    refine ⟨hre, ?_, rfl, rfl⟩
    simp [missingDiags, hre]
  · have hre : resolvedAccessToken env config = "" := by
      simp [resolvedAccessToken, resolveField, h, TfString.isNull, TfString.valueString]
    have h2 : hasError (unknownDiags config ++
        missingDiags (resolvedServerUrl env config) (resolvedAccessToken env config)
          (resolvedUserID env config)) = true := by
      rw [hasError_append, hasError_missingDiags]
      simp [hre]
    rw [configure_missing_branch factory env config h1 h2]
    refine ⟨hre, ?_, rfl, rfl⟩
    simp [missingDiags, hre]
  · have hre : resolvedUserID env config = "" := by
      simp [resolvedUserID, resolveField, h, TfString.isNull, TfString.valueString]
    have h2 : hasError (unknownDiags config ++
        missingDiags (resolvedServerUrl env config) (resolvedAccessToken env config)
          (resolvedUserID env config)) = true := by
      rw [hasError_append, hasError_missingDiags]
      simp [hre]
    rw [configure_missing_branch factory env config h1 h2]
    refine ⟨hre, ?_, rfl, rfl⟩
    simp [missingDiags, hre]

/-- Witness for C10: all three fields concrete empty while every environment
variable is set to a non-empty string; the fallback is still not consulted. -/
theorem configure_concrete_empty_no_fallback_witness :
    resolvedServerUrl (fun _ => some "nonempty") ⟨.value "", .value "", .value ""⟩ = "" ∧
    missingServerUrlDiag ∈ (Configure (fun _ _ _ => (Except.ok () : Except String Unit))
      (fun _ => some "nonempty") ⟨.value "", .value "", .value ""⟩).1.diagnostics ∧
    missingAccessTokenDiag ∈ (Configure (fun _ _ _ => (Except.ok () : Except String Unit))
      (fun _ => some "nonempty") ⟨.value "", .value "", .value ""⟩).1.diagnostics ∧
    missingUserIDDiag ∈ (Configure (fun _ _ _ => (Except.ok () : Except String Unit))
      (fun _ => some "nonempty") ⟨.value "", .value "", .value ""⟩).1.diagnostics ∧
    (Configure (fun _ _ _ => (Except.ok () : Except String Unit))
      (fun _ => some "nonempty") ⟨.value "", .value "", .value ""⟩).1.dataSourceData = none := by
  have h := configure_concrete_empty_no_fallback
    (fun _ _ _ => (Except.ok () : Except String Unit))
    (fun _ => some "nonempty") ⟨.value "", .value "", .value ""⟩ rfl rfl rfl
  exact ⟨(h.1 rfl).1, (h.1 rfl).2.1, (h.2.1 rfl).2.1, (h.2.2 rfl).2.1, (h.1 rfl).2.2.1⟩
